import Mathlib

/-!
Verification of the middleware control-plane repository (`common_agent`).

This file shallowly embeds the parts of the source the checked claims are
about:

* `middleware_manager/config_validator.py` — `ConfigValidator`,
  `ConfigVersionManager` (validation, versioned persistence, diffing,
  redaction, rollback);
* `middleware_manager/health_monitor.py` — `MiddlewareHealthCheck.check`
  and `AlertBase.should_alert`;
* `middleware_manager/adapters.py` (`retry`) and
  `middleware_manager/error_handler.py` (`RecoveryManager.retry_operation`);
* `app/api/v1/middleware.py` (`start_middleware`, `stop_middleware`) and
  `app/api/v1/middleware_operations.py` (`process_middleware_operation`).

Conventions of the embedding:

* Python dicts become association lists `Dict := List (String × Value)`
  with unique, insertion-ordered keys; `d[k] = v` is `Dict.setKey`
  (update in place, else append), matching Python dict semantics.
* Wall-clock reads (`datetime.now()`, `time.time()`) become explicit
  parameters; file-system persistence (`ConfigVersionManager`'s history
  directory) becomes an explicit store value threaded through calls.
* Python exceptions become `Except`; a function under a `try/except`
  that swallows errors is modelled on its caught domain.
* Python floats are modelled as `Rat` (exact arithmetic; none of the
  checked properties depends on rounding).
-/

namespace CommonAgent

/-! ## JSON-like values (Python dict/str/int/bool/None domain) -/

inductive Value where
  | vNull : Value
  | vBool : Bool → Value
  | vInt : Int → Value
  | vStr : String → Value
  | vList : List Value → Value
  | vDict : List (String × Value) → Value
deriving Repr

/-- Python `==` on the embedded value domain.  Nested-dictionary comparison
is positional here; every configuration compared by the source in the
checked claims is built with a fixed key order, so this coincides with
Python's order-insensitive dict equality on the inputs that matter. -/
def Value.beq : Value → Value → Bool
  | .vNull, .vNull => true
  | .vBool a, .vBool b => a == b
  | .vInt a, .vInt b => a == b
  | .vStr a, .vStr b => a == b
  | .vList a, .vList b => beqElems a b
  | .vDict a, .vDict b => beqFields a b
  | _, _ => false
where
  beqElems : List Value → List Value → Bool
    | [], [] => true
    | v₁ :: t₁, v₂ :: t₂ => v₁.beq v₂ && beqElems t₁ t₂
    | _, _ => false
  beqFields : List (String × Value) → List (String × Value) → Bool
    | [], [] => true
    | (k₁, v₁) :: t₁, (k₂, v₂) :: t₂ => k₁ == k₂ && v₁.beq v₂ && beqFields t₁ t₂
    | _, _ => false

instance : BEq Value := ⟨Value.beq⟩

/-- A Python dict: insertion-ordered association list with unique keys. -/
abbrev Dict := List (String × Value)

/-- `k in d`. -/
def Dict.containsKey (d : Dict) (k : String) : Bool :=
  d.any (fun kv => kv.1 == k)

/-- `d.get(k)` / `d[k]`. -/
def Dict.lookup : Dict → String → Option Value
  | [], _ => none
  | (k', v) :: t, k => if k' == k then some v else Dict.lookup t k

/-- `d[k] = v`: replace in place when the key exists, else append,
preserving Python dict insertion order. -/
def Dict.setKey (d : Dict) (k : String) (v : Value) : Dict :=
  if d.containsKey k then
    d.map (fun kv => if kv.1 == k then (kv.1, v) else kv)
  else
    d ++ [(k, v)]

/-- `list(d.keys())`. -/
def Dict.keyList (d : Dict) : List String := d.map Prod.fst

/-! ## String helpers (`str.lower`, the `in` substring test) -/

/-- Character-list prefix test (used to realise Python's `in` on strings). -/
def isPrefixList : List Char → List Char → Bool
  | [], _ => true
  | _ :: _, [] => false
  | a :: as, b :: bs => a == b && isPrefixList as bs

/-- `needle` occurs as a contiguous sublist of the second argument. -/
def isSubList (needle : List Char) : List Char → Bool
  | [] => isPrefixList needle []
  | h :: t => isPrefixList needle (h :: t) || isSubList needle t

/-- Python `needle in hay` on strings. -/
def strContains (hay needle : String) : Bool :=
  isSubList needle.data hay.data

/-- Python `s.lower()` (ASCII; every key the source lowercases is ASCII). -/
def lowerStr (s : String) : String :=
  ⟨s.data.map Char.toLower⟩

/-! ## `ConfigValidator.get_safe_config` (config_validator.py lines 287–305)

`safe_config = config.copy()`; then every key whose lowercase name contains
one of the sensitive substrings has its value overwritten by `'******'`.
Overwriting existing keys of the copy keeps order and key set, so the copy
plus in-place masking is the keywise map below. -/

def sensitive_keys : List String :=
  ["password", "secret", "key", "token", "auth", "credential"]

/-- `key` matches the sensitive-name set (`any(sensitive in key.lower() ...)`). -/
def isSensitiveName (key : String) : Bool :=
  sensitive_keys.any (fun s => strContains (lowerStr key) s)

def get_safe_config : Dict → Dict
  | [] => []
  | (k, v) :: t =>
    if isSensitiveName k then (k, .vStr "******") :: get_safe_config t
    else (k, v) :: get_safe_config t

/-! ## `ConfigVersionManager` (config_validator.py lines 43–152)

The version history lives in per-middleware JSON files named
`config_<timestamp>.json`.  The embedding threads the history as an
explicit store of `(middleware_id, version_id, config)` records with
unique `(middleware_id, version_id)` keys (one file per path);
`save_config_version` takes the timestamp string (the source derives it
from `datetime.now()` at second resolution) as an argument.  The source
writes the file with `open(..., 'w')`, which creates **or overwrites**:
on a timestamp collision the existing version record is replaced, so the
store update is overwrite-in-place, else append. -/

abbrev VersionStore := List (String × String × Dict)

def save_config_version : VersionStore → String → String → Dict → VersionStore
  | [], middleware_id, versionId, config => [(middleware_id, versionId, config)]
  | (m, v, c) :: rest, middleware_id, versionId, config =>
    if m == middleware_id && v == versionId then (m, v, config) :: rest
    else (m, v, c) :: save_config_version rest middleware_id versionId config

def get_config_version : VersionStore → String → String → Option Dict
  | [], _, _ => none
  | (m, v, c) :: t, mid, vid =>
    if m == mid && v == vid then some c else get_config_version t mid vid

structure ConfigDiff where
  added : Dict
  removed : Dict
  modified : List (String × Value × Value)
  unchanged : Int

/-- `ConfigVersionManager.compare_configs` (lines 129–152).  `all_keys` is a
Python set; only membership in the three buckets is ever consumed, so it is
embedded as the deduplicated key list. -/
def compare_configs (old_config new_config : Dict) : ConfigDiff :=
  let allKeys := (old_config.keyList ++ new_config.keyList).dedup
  let added := allKeys.filterMap fun k =>
    if old_config.containsKey k then none
    else (new_config.lookup k).map fun v => (k, v)
  let removed := allKeys.filterMap fun k =>
    if new_config.containsKey k then none
    else (old_config.lookup k).map fun v => (k, v)
  let modified := allKeys.filterMap fun k =>
    match old_config.lookup k, new_config.lookup k with
    | some a, some b => if a.beq b then none else some (k, a, b)
    | _, _ => none
  { added := added, removed := removed, modified := modified,
    unchanged := (allKeys.length : Int) - added.length - removed.length - modified.length }

/-! ## `ConfigValidator.validate_config` (lines 168–195)

Basic validation delegates to the Pydantic models of
`app/models/middleware.py` (`RedisConfig`, `MySQLConfig`, `MongoDBConfig`,
`ElasticsearchConfig`, `RabbitMQConfig`).  Those models are transcribed as
field lists; Pydantic v1 coercion is modelled on the value domain the
claims use (ints, strings, bools, null, string lists). -/

inductive FieldKind where
  | fStr | fInt | fBool | fOptStr | fListStr
deriving Repr, DecidableEq

structure FieldSpec where
  fname : String
  required : Bool
  kind : FieldKind

def fieldOk : FieldKind → Value → Bool
  | .fStr, .vStr _ => true
  | .fStr, .vInt _ => true
  | .fInt, .vInt _ => true
  | .fInt, .vBool _ => true
  | .fInt, .vStr s => !s.data.isEmpty && s.data.all Char.isDigit
  | .fBool, .vBool _ => true
  | .fOptStr, .vNull => true
  | .fOptStr, .vStr _ => true
  | .fListStr, .vList l => l.all fun v => match v with | .vStr _ => true | _ => false
  | _, _ => false

def redisConfigFields : List FieldSpec :=
  [⟨"host", true, .fStr⟩, ⟨"port", false, .fInt⟩, ⟨"db", false, .fInt⟩,
   ⟨"password", false, .fOptStr⟩, ⟨"max_connections", false, .fInt⟩,
   ⟨"socket_timeout", false, .fInt⟩, ⟨"socket_connect_timeout", false, .fInt⟩]

def mysqlConfigFields : List FieldSpec :=
  [⟨"host", true, .fStr⟩, ⟨"port", false, .fInt⟩, ⟨"user", true, .fStr⟩,
   ⟨"password", true, .fStr⟩, ⟨"database", true, .fStr⟩, ⟨"charset", false, .fStr⟩,
   ⟨"max_connections", false, .fInt⟩, ⟨"connection_timeout", false, .fInt⟩]

def mongodbConfigFields : List FieldSpec :=
  [⟨"host", true, .fStr⟩, ⟨"port", false, .fInt⟩, ⟨"user", false, .fOptStr⟩,
   ⟨"password", false, .fOptStr⟩, ⟨"database", true, .fStr⟩,
   ⟨"auth_source", false, .fStr⟩, ⟨"max_pool_size", false, .fInt⟩]

def elasticsearchConfigFields : List FieldSpec :=
  [⟨"hosts", true, .fListStr⟩, ⟨"username", false, .fOptStr⟩,
   ⟨"password", false, .fOptStr⟩, ⟨"timeout", false, .fInt⟩,
   ⟨"max_retries", false, .fInt⟩, ⟨"retry_on_timeout", false, .fBool⟩]

def rabbitmqConfigFields : List FieldSpec :=
  [⟨"host", true, .fStr⟩, ⟨"port", false, .fInt⟩, ⟨"virtual_host", false, .fStr⟩,
   ⟨"username", true, .fStr⟩, ⟨"password", true, .fStr⟩,
   ⟨"connection_attempts", false, .fInt⟩, ⟨"retry_delay", false, .fInt⟩]

/-- `self.config_models` (lines 160–166). -/
def config_models (t : String) : Option (List FieldSpec) :=
  if t = "redis" then some redisConfigFields
  else if t = "mysql" then some mysqlConfigFields
  else if t = "mongodb" then some mongodbConfigFields
  else if t = "elasticsearch" then some elasticsearchConfigFields
  else if t = "rabbitmq" then some rabbitmqConfigFields
  else none

structure ConfigValidationResult where
  is_valid : Bool
  errors : List String
  warnings : List String
deriving Repr

def validate_config (middleware_type : String) (config : Dict) : ConfigValidationResult :=
  match config_models (lowerStr middleware_type) with
  | none => ⟨false, ["不支持的中间件类型: " ++ middleware_type], []⟩
  | some specs =>
    let errors := specs.filterMap fun f =>
      match config.lookup f.fname with
      | none => if f.required then some (f.fname ++ ": field required") else none
      | some v => if fieldOk f.kind v then none else some (f.fname ++ ": type error")
    if errors.isEmpty then ⟨true, [], []⟩ else ⟨false, errors, []⟩

/-! ## `ConfigValidator.validate_config_change` (lines 197–285) -/

/-- `sensitive_configs` (lines 225–231). -/
def sensitive_configs (t : String) : List String :=
  if t = "redis" then ["port", "password", "data_dir"]
  else if t = "mysql" then ["port", "user", "password", "database", "data_dir"]
  else if t = "mongodb" then ["port", "user", "password", "database", "data_dir"]
  else if t = "elasticsearch" then ["hosts", "username", "password"]
  else if t = "rabbitmq" then ["port", "username", "password", "virtual_host"]
  else []

/-- `diff['modified'][k]` as an `{old, new}` pair. -/
def modLookup (diff : ConfigDiff) (k : String) : Option (Value × Value) :=
  (diff.modified.find? fun e => e.1 == k).map Prod.snd

/-- Python `<` on the values the heuristics compare (ints or strings);
comparing incompatible types would raise in the source and is outside the
modelled domain. -/
def valueLt : Value → Value → Bool
  | .vInt a, .vInt b => a < b
  | .vStr a, .vStr b => a < b
  | _, _ => false

/-- Did `diff['modified'][k]['new'] < diff['modified'][k]['old']` fire? -/
def decreasedIn (diff : ConfigDiff) (k : String) : Bool :=
  match modLookup diff k with
  | some (o, n) => valueLt n o
  | none => false

def validate_config_change (store : VersionStore) (middleware_id middleware_type : String)
    (old_config new_config : Dict) (versionId : String) :
    ConfigValidationResult × VersionStore :=
  let basic := validate_config middleware_type new_config
  if !basic.is_valid then (basic, store)
  else
    let diff := compare_configs old_config new_config
    let sens := sensitive_configs (lowerStr middleware_type)
    let sensWarnings := diff.modified.filterMap fun e =>
      if sens.contains e.1 then some ("敏感配置项 " ++ e.1 ++ " 已被修改") else none
    let sensErrors := diff.removed.filterMap fun e =>
      if sens.contains e.1 then some ("敏感配置项 " ++ e.1 ++ " 不能被删除") else none
    let typeWarnings :=
      if lowerStr middleware_type = "redis" then
        (if decreasedIn diff "maxmemory" then ["Redis最大内存配置已减小，可能导致性能问题"] else [])
        ++ (if diff.removed.containsKey "save" then ["Redis持久化配置已被移除，可能导致数据丢失"] else [])
        ++ (if decreasedIn diff "max_connections" then ["Redis最大连接数已减小，可能导致连接拒绝"] else [])
      else if lowerStr middleware_type = "mysql" then
        (if decreasedIn diff "max_connections" then ["MySQL最大连接数已减小，可能导致连接拒绝"] else [])
        ++ (if decreasedIn diff "innodb_buffer_pool_size" then ["InnoDB缓冲池大小已减小，可能影响性能"] else [])
      else if lowerStr middleware_type = "mongodb" then
        (if decreasedIn diff "max_pool_size" then ["MongoDB连接池大小已减小，可能影响并发性能"] else [])
      else []
    let typeErrors :=
      if lowerStr middleware_type = "elasticsearch" then
        (if (diff.modified.find? fun e => e.1 == "cluster.name").isSome then
          ["不允许修改Elasticsearch集群名称，这可能导致节点无法加入集群"] else [])
      else []
    let warnings := sensWarnings ++ typeWarnings
    let errors := sensErrors ++ typeErrors
    let store' := save_config_version store middleware_id versionId new_config
    if !errors.isEmpty then (⟨false, errors, warnings⟩, store')
    else (⟨true, [], warnings⟩, store')

/-! ## `ConfigValidator.rollback_config` (lines 307–335) -/

def rollback_config (store : VersionStore) (middleware_id versionId : String)
    (now newVersionId : String) :
    (Bool × Option Dict × Option String) × VersionStore :=
  match get_config_version store middleware_id versionId with
  | none => ((false, none, some ("版本 " ++ versionId ++ " 不存在")), store)
  | some config =>
    -- `if not config:` — Python treats an empty dict as falsy, so this
    -- branch also fires when a stored version holds an empty config.
    if config.isEmpty then
      ((false, none, some ("版本 " ++ versionId ++ " 不存在")), store)
    else
      let rollback_note : Value := .vDict
        [("rollback", .vBool true), ("from_version", .vStr versionId), ("timestamp", .vStr now)]
      let config' := config.setKey "_rollback_info" rollback_note
      ((true, some config', none), save_config_version store middleware_id newVersionId config')

/-! ## The two retry wrappers

`retry` (adapters.py lines 17–45) and `RecoveryManager.retry_operation`
(error_handler.py lines 158–195).  The wrapped callable is embedded as an
oracle `f : Nat → Except String A` giving the outcome of its k-th
invocation (0-indexed); exceptions of the configured set become `.error`
with the exception's message (`str(e)`).  An exception outside the
configured set propagates out of both wrappers identically and is outside
the modelled domain.  A trace records how many times the callable was
invoked, the `time.sleep` durations performed between attempts, and what
the caller observes. -/

/-- What a call through the adapter-framework `retry` decorator observes:
`.ok (some a)` — the wrapped function's return value; `.ok none` — the
wrapper fell off its loop and implicitly returned `None` (only reachable
with `max_attempts = 0`); `.error e` — the last exception re-raised. -/
structure RetryTrace (A : Type) where
  calls : Nat
  delays : List Int
  outcome : Except String (Option A)
deriving Repr

/-- `OperationResult` (error_handler.py lines 17–43); the wall-clock
timestamp field is not modelled. -/
structure OperationResult (A : Type) where
  success : Bool
  data : Option A
  error : Option String
deriving Repr, DecidableEq

structure RecoveryTrace (A : Type) where
  calls : Nat
  delays : List Int
  result : OperationResult A
deriving Repr, DecidableEq

/-- The `while attempt < max_attempts` loop of the `retry` decorator
(adapters.py lines 28–43): `k` is `attempt` (also the number of calls made
so far), `cur` is `current_delay`, and the structural recursion runs on
`remaining = max_attempts - attempt` (the loop guard `attempt <
max_attempts` is `remaining > 0`; the re-raise guard `attempt + 1 >=
max_attempts` is `remaining = 1`). -/
def adapterRetryGo {A : Type} (f : Nat → Except String A) (backoff : Int) :
    Nat → Nat → Int → List Int → RetryTrace A
  | 0, k, _, ds => ⟨k, ds, .ok none⟩
  | remaining + 1, k, cur, ds =>
    match f k with
    | .ok a => ⟨k + 1, ds, .ok (some a)⟩
    | .error e =>
      match remaining with
      | 0 => ⟨k + 1, ds, .error e⟩
      | _ + 1 => adapterRetryGo f backoff remaining (k + 1) (cur * backoff) (ds ++ [cur])

/-- `retry(max_attempts, delay, backoff, exceptions)` applied to a
function: run the loop from attempt 0 (`remaining = max_attempts`). -/
def retry {A : Type} (maxAttempts : Nat) (delay backoff : Int)
    (f : Nat → Except String A) : RetryTrace A :=
  adapterRetryGo f backoff maxAttempts 0 delay []

/-- The `while attempt < max_attempts` loop of
`RecoveryManager.retry_operation` (error_handler.py lines 172–193):
identical control flow, but success is wrapped in
`OperationResult.success_result` and the final failure `break`s and is
returned as `OperationResult.error_result` instead of being re-raised
(`str(last_exception)` is `lastE.getD "None"`). -/
def retryOperationGo {A : Type} (f : Nat → Except String A) (backoff : Int) :
    Nat → Nat → Int → List Int → Option String → RecoveryTrace A
  | 0, k, _, ds, lastE =>
    ⟨k, ds, ⟨false, none,
      some ("操作失败，已重试 " ++ toString k ++ " 次: " ++ lastE.getD "None")⟩⟩
  | remaining + 1, k, cur, ds, _ =>
    match f k with
    | .ok a => ⟨k + 1, ds, ⟨true, some a, none⟩⟩
    | .error e =>
      match remaining with
      | 0 => ⟨k + 1, ds, ⟨false, none,
          some ("操作失败，已重试 " ++ toString (k + 1) ++ " 次: " ++ e)⟩⟩
      | _ + 1 => retryOperationGo f backoff remaining (k + 1) (cur * backoff) (ds ++ [cur]) (some e)

def retry_operation {A : Type} (maxAttempts : Nat) (delay backoff : Int)
    (f : Nat → Except String A) : RecoveryTrace A :=
  retryOperationGo f backoff maxAttempts 0 delay [] none

/-- A common observation type to compare how the two wrappers report to
their caller: a normal return of the underlying value, a raised exception,
or an error wrapped in a normally-returned `OperationResult`. -/
inductive RetryReport (A : Type) where
  | value : Option A → RetryReport A
  | raised : String → RetryReport A
  | errValue : String → RetryReport A
deriving Repr, DecidableEq

def adapterReport {A : Type} (t : RetryTrace A) : RetryReport A :=
  match t.outcome with
  | .ok x => .value x
  | .error e => .raised e

def recoveryReport {A : Type} (t : RecoveryTrace A) : RetryReport A :=
  if t.result.success then .value t.result.data
  else .errValue (t.result.error.getD "")

/-! ## Number rendering

Python renders the numbers interpolated into health-check messages with
`f"{x:.1f}"`/`f"{x:.2f}"`.  The embedding renders the exact rational
instead; no checked claim depends on the rendering, only on the character
set of the rendered text (the `"严重" in issue` scan below), which for both
renderings is ASCII. -/

def natDigitsAux : Nat → Nat → List Char
  | 0, _ => []
  | fuel + 1, n =>
    if n < 10 then [Char.ofNat (48 + n % 10)]
    else natDigitsAux fuel (n / 10) ++ [Char.ofNat (48 + n % 10)]

def natText (n : Nat) : String := ⟨natDigitsAux (n + 1) n⟩

def intText (i : Int) : String :=
  if i < 0 then "-" ++ natText i.natAbs else natText i.natAbs

def ratText (q : Rat) : String :=
  if q.den = 1 then intText q.num else intText q.num ++ "/" ++ natText q.den

/-! ## `MiddlewareHealthCheck` (health_monitor.py lines 66–236)

The adapter call `self.adapter.get_status()` is embedded as
`Except String StatusResult` (`.error` = the call raised, message
`str(e)`); the measured `response_time` and the current time are explicit
parameters.  `status_info` keys consumed by `check` become `Option`
fields. -/

structure StatusInfo where
  status : Option String
  used_memory_human : Option String
  maxmemory_human : Option String
  cpu_usage : Option Rat
  connected_clients : Option Int
  maxclients : Option Int
deriving Repr

def emptyStatusInfo : StatusInfo := ⟨none, none, none, none, none, none⟩

structure StatusResult where
  success : Bool
  error : Option String
  status : Option StatusInfo
deriving Repr

structure HistoryEntry where
  timestamp : String
  status : String
  message : String
  response_time : Rat
deriving Repr, DecidableEq

structure CheckState where
  last_check_time : Option String
  last_status : String
  last_message : String
  history : List HistoryEntry
deriving Repr, DecidableEq

structure CheckResult where
  success : Bool
  status : String
  message : String
  response_time : Rat
deriving Repr, DecidableEq

/-- Split a character list at `'.'` (used to realise Python's `float()` on
the digit/dot strings produced by `_parse_memory_usage`). -/
def splitOnDot : List Char → List (List Char)
  | [] => [[]]
  | c :: t =>
    let r := splitOnDot t
    if c == '.' then [] :: r
    else
      match r with
      | h :: t' => (c :: h) :: t'
      | [] => [[c]]

def digitsVal (cs : List Char) : Nat :=
  cs.foldl (fun a c => a * 10 + (c.toNat - 48)) 0

/-- Python `float()` on a string of digits and dots: at most one dot, at
least one digit; `none` models the `ValueError` caught by the source. -/
def parseFloatChars (cs : List Char) : Option Rat :=
  match splitOnDot cs with
  | [intPart] => if intPart.isEmpty then none else some (digitsVal intPart)
  | [intPart, fracPart] =>
    if intPart.isEmpty && fracPart.isEmpty then none
    else some ((digitsVal intPart : Rat) + (digitsVal fracPart : Rat) / ((10 : Rat) ^ fracPart.length))
  | _ => none

/-- `MiddlewareHealthCheck._parse_memory_usage` (lines 217–236). -/
def parse_memory_usage (s : String) : Rat :=
  if s = "" || s = "0" then 0
  else
    let cs := s.data.filter (fun c => c.isDigit || c == '.')
    match parseFloatChars cs with
    | none => 0
    | some v =>
      if s.data.contains 'K' || s.data.contains 'k' then v * 1024
      else if s.data.contains 'M' || s.data.contains 'm' then v * 1024 * 1024
      else if s.data.contains 'G' || s.data.contains 'g' then v * 1024 * 1024 * 1024
      else v

/-- `self.thresholds` (lines 82–91). -/
def thresholds (key : String) : Rat :=
  if key = "memory_usage_warning" then 70
  else if key = "memory_usage_critical" then 90
  else if key = "cpu_usage_warning" then 70
  else if key = "cpu_usage_critical" then 90
  else if key = "connection_usage_warning" then 70
  else if key = "connection_usage_critical" then 90
  else if key = "response_time_warning" then 1
  else if key = "response_time_critical" then 3
  else 0

/-- Memory segment of the issue list (lines 116–126). -/
def memoryIssues (info : StatusInfo) : List String :=
  match info.used_memory_human with
  | none => []
  | some um =>
    let memory_usage := parse_memory_usage um
    let memory_limit := parse_memory_usage (info.maxmemory_human.getD "0")
    if memory_limit > 0 then
      let pct := memory_usage / memory_limit * 100
      if pct ≥ thresholds "memory_usage_critical" then
        ["内存使用率达到严重水平: " ++ ratText pct ++ "%"]
      else if pct ≥ thresholds "memory_usage_warning" then
        ["内存使用率达到警告水平: " ++ ratText pct ++ "%"]
      else []
    else []

/-- CPU segment (lines 128–134). -/
def cpuIssues (info : StatusInfo) : List String :=
  match info.cpu_usage with
  | none => []
  | some cpu =>
    if cpu ≥ thresholds "cpu_usage_critical" then
      ["CPU使用率达到严重水平: " ++ ratText cpu ++ "%"]
    else if cpu ≥ thresholds "cpu_usage_warning" then
      ["CPU使用率达到警告水平: " ++ ratText cpu ++ "%"]
    else []

/-- Connection segment (lines 136–146). -/
def connIssues (info : StatusInfo) : List String :=
  match info.connected_clients, info.maxclients with
  | some connected, some max_clients =>
    if max_clients > 0 then
      let pct := (connected : Rat) / (max_clients : Rat) * 100
      if pct ≥ thresholds "connection_usage_critical" then
        ["连接使用率达到严重水平: " ++ ratText pct ++ "%"]
      else if pct ≥ thresholds "connection_usage_warning" then
        ["连接使用率达到警告水平: " ++ ratText pct ++ "%"]
      else []
    else []
  | _, _ => []

/-- Response-time segment (lines 148–152). -/
def respIssues (response_time : Rat) : List String :=
  if response_time ≥ thresholds "response_time_critical" then
    ["响应时间达到严重水平: " ++ ratText response_time ++ "秒"]
  else if response_time ≥ thresholds "response_time_warning" then
    ["响应时间达到警告水平: " ++ ratText response_time ++ "秒"]
  else []

def checkIssues (info : StatusInfo) (response_time : Rat) : List String :=
  memoryIssues info ++ cpuIssues info ++ connIssues info ++ respIssues response_time

/-- `MiddlewareHealthCheck.check` (lines 93–215) as a transition on the
check's state.  On the success path the history is appended to and trimmed
to the last 100; on the exception path (lines 191–215) the source appends
without trimming, which the embedding reproduces. -/
def MiddlewareHealthCheck_check (adapter : Except String StatusResult)
    (response_time : Rat) (now : String) (st : CheckState) :
    CheckResult × CheckState :=
  match adapter with
  | .ok status_result =>
    let sm : String × String :=
      if !status_result.success then
        ("critical", "无法获取中间件状态: " ++ status_result.error.getD "未知错误")
      else
        let status_info := status_result.status.getD emptyStatusInfo
        if status_info.status ≠ some "running" then
          ("critical", "中间件未运行，当前状态: " ++ status_info.status.getD "未知")
        else
          let issues := checkIssues status_info response_time
          if issues.isEmpty then ("healthy", "中间件运行正常")
          else
            let has_critical := issues.any fun issue => strContains issue "严重"
            ((if has_critical then "critical" else "warning"), String.intercalate "\n" issues)
    let entry : HistoryEntry := ⟨now, sm.1, sm.2, response_time⟩
    let h := st.history ++ [entry]
    let h' := if h.length > 100 then h.drop (h.length - 100) else h
    (⟨true, sm.1, sm.2, response_time⟩, ⟨some now, sm.1, sm.2, h'⟩)
  | .error e =>
    let msg := "健康检查异常: " ++ e
    let entry : HistoryEntry := ⟨now, "critical", msg, response_time⟩
    (⟨false, "critical", msg, response_time⟩,
     ⟨some now, "critical", msg, st.history ++ [entry]⟩)

/-! ## Spec-side severity classification (for the C2 refinement)

The spec describes the evaluation as collecting threshold breaches with a
severity each and classifying from the severities; the source instead
builds message strings and re-derives criticality by scanning for the
substring "严重".  The following definitions follow the spec's words, to be
compared with `MiddlewareHealthCheck_check`. -/

inductive Severity where
  | warn | crit
deriving Repr, DecidableEq

def memorySevs (info : StatusInfo) : List Severity :=
  match info.used_memory_human with
  | none => []
  | some um =>
    let memory_usage := parse_memory_usage um
    let memory_limit := parse_memory_usage (info.maxmemory_human.getD "0")
    if memory_limit > 0 then
      let pct := memory_usage / memory_limit * 100
      if pct ≥ thresholds "memory_usage_critical" then [.crit]
      else if pct ≥ thresholds "memory_usage_warning" then [.warn]
      else []
    else []

def cpuSevs (info : StatusInfo) : List Severity :=
  match info.cpu_usage with
  | none => []
  | some cpu =>
    if cpu ≥ thresholds "cpu_usage_critical" then [.crit]
    else if cpu ≥ thresholds "cpu_usage_warning" then [.warn]
    else []

def connSevs (info : StatusInfo) : List Severity :=
  match info.connected_clients, info.maxclients with
  | some connected, some max_clients =>
    if max_clients > 0 then
      let pct := (connected : Rat) / (max_clients : Rat) * 100
      if pct ≥ thresholds "connection_usage_critical" then [.crit]
      else if pct ≥ thresholds "connection_usage_warning" then [.warn]
      else []
    else []
  | _, _ => []

def respSevs (response_time : Rat) : List Severity :=
  if response_time ≥ thresholds "response_time_critical" then [.crit]
  else if response_time ≥ thresholds "response_time_warning" then [.warn]
  else []

def breachSeverities (info : StatusInfo) (response_time : Rat) : List Severity :=
  memorySevs info ++ cpuSevs info ++ connSevs info ++ respSevs response_time

/-- Modelled from the spec's evaluation-algorithm wording: failure to
retrieve status → critical; reported status not "running" → critical; no
breaches → healthy; any critical breach → critical; else warning. -/
def specStatus (adapter : Except String StatusResult) (response_time : Rat) : String :=
  match adapter with
  | .error _ => "critical"
  | .ok r =>
    if !r.success then "critical"
    else
      let info := r.status.getD emptyStatusInfo
      if info.status ≠ some "running" then "critical"
      else
        let sevs := breachSeverities info response_time
        if sevs.isEmpty then "healthy"
        else if sevs.any fun s => s == Severity.crit then "critical"
        else "warning"

/-! ## `AlertBase.should_alert` (health_monitor.py lines 316–367)

`last_alert_time` is a per-check-name map, embedded as an association
list of `(check name, alert time)`; wall-clock instants are seconds as
`Int` (`(now - last).total_seconds() < cooldown` becomes integer
comparison).  The function returns the decision and the updated map
(the map is updated exactly when the alert is dispatched). -/

abbrev AlertState := List (String × Int)

def lookupTime : AlertState → String → Option Int
  | [], _ => none
  | (n, t) :: rest, name => if n == name then some t else lookupTime rest name

/-- `self.last_alert_time[check_name] = now`: update in place, else
append (Python dict assignment). -/
def setTime : AlertState → String → Int → AlertState
  | [], name, t => [(name, t)]
  | (n, t') :: rest, name, t =>
    if n == name then (n, t) :: rest else (n, t') :: setTime rest name t

/-- Severity of a check result as `should_alert` derives it (lines
343–349). -/
def levelOf (statusStr : String) : String :=
  if statusStr = "warning" then "warning"
  else if statusStr = "critical" then "critical"
  else "info"

def should_alert (min_level : String) (cooldown : Int) (st : AlertState)
    (check_name : String) (statusStr : String) (now : Int) : Bool × AlertState :=
  let level := levelOf statusStr
  if level = "info" ∧ min_level ≠ "info" then (false, st)
  else if level = "warning" ∧ min_level = "critical" then (false, st)
  else
    match lookupTime st check_name with
    | some last =>
      if now - last < cooldown then (false, st)
      else (true, setTime st check_name now)
    | none => (true, setTime st check_name now)

/-- The default `cooldown_period` (line 330). -/
def cooldown_period : Int := 300

/-! ## Management API endpoints (app/api/v1/middleware.py)

`MIDDLEWARE_DB` is an association list of id → record, `OPERATIONS_DB` a
list of operation records.  `HTTPException(status_code, detail)` becomes
the `Except` error `(status_code, detail)`; `uuid4()` and
`datetime.now()` become explicit arguments.  The endpoints only create the
Operation record and schedule the background task; the task itself is
`process_middleware_operation` below. -/

structure MwRecord where
  name : String
  mtype : String
  host : String
  port : Int
  version : Value
  status : String
  last_updated : String
  config : Dict
deriving Repr

abbrev MwDB := List (String × MwRecord)

def dbLookup : MwDB → String → Option MwRecord
  | [], _ => none
  | (k, v) :: t, mid => if k == mid then some v else dbLookup t mid

def dbUpdate (db : MwDB) (mid : String) (mw : MwRecord) : MwDB :=
  db.map fun e => if e.1 == mid then (e.1, mw) else e

structure Operation where
  operation_id : String
  middleware_id : String
  operation_type : String
  status : String
  created_at : String
  updated_at : String
  params : Option Dict
  result : Option Dict
  error_message : Option String
deriving Repr

/-- `start_middleware` (lines 108–148): 404 when the id is unknown, 400
when the instance is already running (the rejection the spec's error
taxonomy labels Conflict), else append a pending `start` Operation. -/
def start_middleware (db : MwDB) (ops : List Operation) (middleware_id : String)
    (opId now : String) : Except (Nat × String) Operation × MwDB × List Operation :=
  match dbLookup db middleware_id with
  | none => (.error (404, "中间件 " ++ middleware_id ++ " 不存在"), db, ops)
  | some mw =>
    if mw.status = "running" then
      (.error (400, "中间件 " ++ middleware_id ++ " 已经在运行中"), db, ops)
    else
      let op : Operation := ⟨opId, middleware_id, "start", "pending", now, now, none, none, none⟩
      (.ok op, db, ops ++ [op])

/-- `stop_middleware` (lines 151–191), symmetric to `start_middleware`. -/
def stop_middleware (db : MwDB) (ops : List Operation) (middleware_id : String)
    (opId now : String) : Except (Nat × String) Operation × MwDB × List Operation :=
  match dbLookup db middleware_id with
  | none => (.error (404, "中间件 " ++ middleware_id ++ " 不存在"), db, ops)
  | some mw =>
    if mw.status = "stopped" then
      (.error (400, "中间件 " ++ middleware_id ++ " 已经停止"), db, ops)
    else
      let op : Operation := ⟨opId, middleware_id, "stop", "pending", now, now, none, none, none⟩
      (.ok op, db, ops ++ [op])

/-! ## `process_middleware_operation` (app/api/v1/middleware_operations.py) -/

/-- Python truthiness on the embedded value domain
(`if restart_after_update:`). -/
def pyTruthy : Value → Bool
  | .vNull => false
  | .vBool b => b
  | .vInt n => n != 0
  | .vStr s => s ≠ ""
  | .vList l => !l.isEmpty
  | .vDict d => !d.isEmpty

def opsUpdate (ops : List Operation) (opId : String) (f : Operation → Operation) :
    List Operation :=
  ops.map fun op => if op.operation_id == opId then f op else op

/-- `start_middleware_service` (lines 72–91). -/
def start_middleware_service (now : String) (mw : MwRecord) : MwRecord :=
  { mw with status := "running", last_updated := now }

/-- `stop_middleware_service` (lines 93–112). -/
def stop_middleware_service (now : String) (mw : MwRecord) : MwRecord :=
  { mw with status := "stopped", last_updated := now }

/-- `restart_middleware_service` (lines 114–127): stop, then start. -/
def restart_middleware_service (now : String) (mw : MwRecord) : MwRecord :=
  start_middleware_service now (stop_middleware_service now mw)

/-- `upgrade_middleware_service` (lines 129–164): the backup/upgrade
sleeps are timing-only; the state effect is setting version and status. -/
def upgrade_middleware_service (params : Dict) (now : String) (mw : MwRecord) : MwRecord :=
  { mw with version := (params.lookup "target_version").getD .vNull,
            status := "running", last_updated := now }

/-- Python `dict.update`. -/
def dictUpdate (d : Dict) (u : Dict) : Dict :=
  u.foldl (fun acc kv => acc.setKey kv.1 kv.2) d

/-- `update_middleware_config` (lines 166–189). -/
def update_middleware_config_service (params : Dict) (now : String) (mw : MwRecord) : MwRecord :=
  let new_config := match params.lookup "config" with
    | some (.vDict d) => d
    | _ => []
  let restart_after_update := ((params.lookup "restart_after_update").getD (.vBool true))
  let mw' := { mw with config := dictUpdate mw.config new_config, last_updated := now }
  if pyTruthy restart_after_update then restart_middleware_service now mw' else mw'

/-- `process_middleware_operation` (lines 13–70) as a transition on the
shared state `(MIDDLEWARE_DB, OPERATIONS_DB)`.  The callers always pass
`params` for `upgrade`/`config_update`, so the embedding takes it as a
`Dict` defaulting to empty. -/
def process_middleware_operation (db : MwDB) (ops : List Operation)
    (operation_id operation_type middleware_id : String) (params : Option Dict)
    (now : String) : MwDB × List Operation :=
  match ops.find? (fun op => op.operation_id == operation_id) with
  | none => (db, ops)
  | some _ =>
    let ops₁ := opsUpdate ops operation_id fun op =>
      { op with status := "in_progress", updated_at := now }
    match dbLookup db middleware_id with
    | none =>
      (db, opsUpdate ops₁ operation_id fun op =>
        { op with status := "failed", updated_at := now,
                  error_message := some ("中间件 " ++ middleware_id ++ " 不存在") })
    | some mw =>
      let acted : Option MwRecord :=
        if operation_type = "start" then some (start_middleware_service now mw)
        else if operation_type = "stop" then some (stop_middleware_service now mw)
        else if operation_type = "restart" then some (restart_middleware_service now mw)
        else if operation_type = "upgrade" then
          some (upgrade_middleware_service (params.getD []) now mw)
        else if operation_type = "config_update" then
          some (update_middleware_config_service (params.getD []) now mw)
        else none
      match acted with
      | none =>
        (db, opsUpdate ops₁ operation_id fun op =>
          { op with status := "failed", updated_at := now,
                    error_message := some ("不支持的操作类型: " ++ operation_type) })
      | some mw' =>
        (dbUpdate db middleware_id mw',
         opsUpdate ops₁ operation_id fun op =>
          { op with status := "completed", updated_at := now,
                    result := some [("success", .vBool true)] })

/-! ## Concrete fixtures used by witnesses and counterexamples -/

def sampleRunning : MwRecord :=
  ⟨"主Redis服务", "redis", "localhost", 6379, .vStr "6.2.6", "running", "t0",
   [("host", .vStr "localhost"), ("port", .vInt 6379)]⟩

def sampleStopped : MwRecord := { sampleRunning with status := "stopped" }

def histEntry0 : HistoryEntry := ⟨"t0", "healthy", "ok", 0⟩

/-- A check state whose rolling history is already at the 100-entry cap. -/
def hist100 : CheckState := ⟨none, "unknown", "m", List.replicate 100 histEntry0⟩

/-- A status payload reporting a running instance and no metrics. -/
def runningInfo : StatusInfo := ⟨some "running", none, none, none, none, none⟩

/-- A check state as freshly constructed (`HealthCheck.__init__`). -/
def freshCheckState : CheckState := ⟨none, "unknown", "未执行检查", []⟩

/-- A status payload of a running instance using `u` of `m` memory. -/
def memInfo (u m : String) : StatusInfo := ⟨some "running", some u, some m, none, none, none⟩

/-!
# Theorems

Helper lemmas first, then one theorem (with witness or counterexample
where required) per claim.
-/

/-! ## Helper lemmas: `get_safe_config` -/

theorem lookup_get_safe_config (config : Dict) (k : String) :
    (get_safe_config config).lookup k =
      (config.lookup k).map (fun v => if isSensitiveName k then .vStr "******" else v) := by
  induction config with
  | nil => rfl
  | cons kv t ih =>
    obtain ⟨k', v'⟩ := kv
    by_cases hk : k' == k
    · have hkk : k' = k := beq_iff_eq.mp hk
      subst hkk
      by_cases hs : isSensitiveName k' <;>
        simp [get_safe_config, Dict.lookup, hs]
    · by_cases hs : isSensitiveName k' <;>
        simp only [get_safe_config, hs, if_true, if_false, Dict.lookup, hk] <;>
        simpa [Dict.lookup, hk, hs] using ih

theorem keyList_get_safe_config (config : Dict) :
    (get_safe_config config).keyList = config.keyList := by
  induction config with
  | nil => rfl
  | cons kv t ih =>
    obtain ⟨k', v'⟩ := kv
    by_cases hs : isSensitiveName k' <;>
      simp [get_safe_config, Dict.keyList, hs] at *  <;> exact ih

/-! ## Helper lemmas: version store -/

theorem get_config_version_save_same (store : VersionStore) (mid vid : String)
    (c : Dict) :
    get_config_version (save_config_version store mid vid c) mid vid = some c := by
  induction store with
  | nil => simp [save_config_version, get_config_version]
  | cons e rest ih =>
    obtain ⟨m, v, cc⟩ := e
    by_cases h : (m == mid && v == vid)
    · simp [save_config_version, get_config_version, h]
    · simp only [save_config_version, h, Bool.false_eq_true, if_false]
      simpa [get_config_version, h] using ih

theorem get_config_version_save_other (store : VersionStore) (mid vid ts : String)
    (c : Dict) (hne : vid ≠ ts) :
    get_config_version (save_config_version store mid ts c) mid vid
      = get_config_version store mid vid := by
  have hts : (ts == vid) = false := by
    simp only [beq_eq_false_iff_ne, ne_eq]
    exact fun h => hne h.symm
  induction store with
  | nil => simp [save_config_version, get_config_version, hts]
  | cons e rest ih =>
    obtain ⟨m, v, cc⟩ := e
    by_cases h : (m == mid && v == ts)
    · have hv : v = ts := beq_iff_eq.mp (Bool.and_elim_right h)
      have hvv : (v == vid) = false := by
        subst hv
        exact hts
      simp [save_config_version, get_config_version, h, hvv]
    · simp only [save_config_version, h, Bool.false_eq_true, if_false]
      by_cases h2 : (m == mid && v == vid)
      · simp [get_config_version, h2]
      · simpa [get_config_version, h2] using ih

theorem persists_exactly_on_basic_validity (store : VersionStore)
    (mid mtype : String) (old_config new_config : Dict) (versionId : String) :
    (validate_config_change store mid mtype old_config new_config versionId).2 =
      if (validate_config mtype new_config).is_valid then
        save_config_version store mid versionId new_config
      else store := by
  unfold validate_config_change
  by_cases h : (validate_config mtype new_config).is_valid
  · simp only [h, Bool.not_true, Bool.false_eq_true, if_false, if_true]
    rw [apply_ite Prod.snd]
    simp
  · simp only [Bool.not_eq_true] at h
    simp [h]

/-! ## Helper lemmas: the two retry loops in lockstep -/

theorem adapterRetryGo_ok {A : Type} {f : Nat → Except String A} {k : Nat} {a : A}
    (hf : f k = .ok a) (backoff : Int) (r : Nat) (cur : Int) (ds : List Int) :
    adapterRetryGo f backoff (r + 1) k cur ds = ⟨k + 1, ds, .ok (some a)⟩ := by
  cases r <;> simp [adapterRetryGo, hf]

theorem adapterRetryGo_err_last {A : Type} {f : Nat → Except String A} {k : Nat}
    {e : String} (hf : f k = .error e) (backoff : Int) (cur : Int) (ds : List Int) :
    adapterRetryGo f backoff 1 k cur ds = ⟨k + 1, ds, .error e⟩ := by
  simp [adapterRetryGo, hf]

theorem adapterRetryGo_err_step {A : Type} {f : Nat → Except String A} {k : Nat}
    {e : String} (hf : f k = .error e) (backoff : Int) (r : Nat) (cur : Int)
    (ds : List Int) :
    adapterRetryGo f backoff (r + 1 + 1) k cur ds
      = adapterRetryGo f backoff (r + 1) (k + 1) (cur * backoff) (ds ++ [cur]) := by
  simp [adapterRetryGo, hf]

theorem retryOperationGo_ok {A : Type} {f : Nat → Except String A} {k : Nat} {a : A}
    (hf : f k = .ok a) (backoff : Int) (r : Nat) (cur : Int) (ds : List Int)
    (lastE : Option String) :
    retryOperationGo f backoff (r + 1) k cur ds lastE = ⟨k + 1, ds, ⟨true, some a, none⟩⟩ := by
  cases r <;> simp [retryOperationGo, hf]

theorem retryOperationGo_err_last {A : Type} {f : Nat → Except String A} {k : Nat}
    {e : String} (hf : f k = .error e) (backoff : Int) (cur : Int) (ds : List Int)
    (lastE : Option String) :
    retryOperationGo f backoff 1 k cur ds lastE
      = ⟨k + 1, ds, ⟨false, none,
          some ("操作失败，已重试 " ++ toString (k + 1) ++ " 次: " ++ e)⟩⟩ := by
  simp [retryOperationGo, hf]

theorem retryOperationGo_err_step {A : Type} {f : Nat → Except String A} {k : Nat}
    {e : String} (hf : f k = .error e) (backoff : Int) (r : Nat) (cur : Int)
    (ds : List Int) (lastE : Option String) :
    retryOperationGo f backoff (r + 1 + 1) k cur ds lastE
      = retryOperationGo f backoff (r + 1) (k + 1) (cur * backoff) (ds ++ [cur]) (some e) := by
  simp [retryOperationGo, hf]

theorem retryGo_calls_delays_agree {A : Type} (f : Nat → Except String A)
    (backoff : Int) :
    ∀ (r k : Nat) (cur : Int) (ds : List Int) (lastE : Option String),
      (adapterRetryGo f backoff r k cur ds).calls
        = (retryOperationGo f backoff r k cur ds lastE).calls
      ∧ (adapterRetryGo f backoff r k cur ds).delays
        = (retryOperationGo f backoff r k cur ds lastE).delays := by
  intro r
  induction r with
  | zero => intro k cur ds lastE; exact ⟨rfl, rfl⟩
  | succ r ih =>
    intro k cur ds lastE
    cases hf : f k with
    | ok a => rw [adapterRetryGo_ok hf, retryOperationGo_ok hf]; exact ⟨rfl, rfl⟩
    | error e =>
      cases r with
      | zero => rw [adapterRetryGo_err_last hf, retryOperationGo_err_last hf]; exact ⟨rfl, rfl⟩
      | succ r' =>
        rw [adapterRetryGo_err_step hf, retryOperationGo_err_step hf]
        exact ih (k + 1) (cur * backoff) (ds ++ [cur]) (some e)

theorem retryGo_outcome_agree {A : Type} (f : Nat → Except String A)
    (backoff : Int) :
    ∀ (r k : Nat) (cur : Int) (ds : List Int) (lastE : Option String), 0 < r →
      ((∀ a : A, (adapterRetryGo f backoff r k cur ds).outcome = .ok (some a) →
          (retryOperationGo f backoff r k cur ds lastE).result = ⟨true, some a, none⟩)
       ∧ (∀ e, (adapterRetryGo f backoff r k cur ds).outcome = .error e →
          (retryOperationGo f backoff r k cur ds lastE).result =
            ⟨false, none, some ("操作失败，已重试 " ++ toString (k + r) ++ " 次: " ++ e)⟩)) := by
  intro r
  induction r with
  | zero => intro k cur ds lastE h; exact absurd h (by omega)
  | succ r ih =>
    intro k cur ds lastE _
    cases hf : f k with
    | ok a =>
      rw [adapterRetryGo_ok hf, retryOperationGo_ok hf]
      refine ⟨fun a' ha' => ?_, fun e he => ?_⟩
      · obtain rfl : a = a' := by simpa using ha'
        rfl
      · simp at he
    | error e =>
      cases r with
      | zero =>
        rw [adapterRetryGo_err_last hf, retryOperationGo_err_last hf]
        refine ⟨fun a' ha' => by simp at ha', fun e' he' => ?_⟩
        obtain rfl : e = e' := by simpa using he'
        simp
      | succ r' =>
        rw [adapterRetryGo_err_step hf, retryOperationGo_err_step hf]
        have hrec := ih (k + 1) (cur * backoff) (ds ++ [cur]) (some e) (by omega)
        refine ⟨hrec.1, fun e' he' => ?_⟩
        rw [hrec.2 e' he']
        have hn : k + 1 + (r' + 1) = k + (r' + 1 + 1) := by omega
        rw [hn]

/-! ## Claim C5 — the default retry policy -/

/-- C5: under the default policy (3 attempts, 2-second initial delay,
backoff factor 2), for both wrappers (`retry` in the adapter framework and
`RecoveryManager.retry_operation`): an operation failing on the first two
attempts and succeeding on the third succeeds overall after exactly 3
invocations, with sleeps of 2 s then 4 s between attempts (so the second
retry runs no sooner than 2+4 ≥ 4 seconds after the first failure); an
operation failing on all 3 attempts is invoked exactly 3 times — never a
fourth — and the final failure is reported (re-raised by `retry`, returned
as an error `OperationResult` by `retry_operation`). -/
theorem C5_default_retry_policy :
    (∀ (A : Type) (f : Nat → Except String A) (e₀ e₁ : String) (a : A),
      f 0 = .error e₀ → f 1 = .error e₁ → f 2 = .ok a →
      retry 3 2 2 f = ⟨3, [2, 4], .ok (some a)⟩
      ∧ retry_operation 3 2 2 f = ⟨3, [2, 4], ⟨true, some a, none⟩⟩)
    ∧ (∀ (A : Type) (f : Nat → Except String A) (e₀ e₁ e₂ : String),
      f 0 = .error e₀ → f 1 = .error e₁ → f 2 = .error e₂ →
      retry 3 2 2 f = ⟨3, [2, 4], .error e₂⟩
      ∧ retry_operation 3 2 2 f =
          ⟨3, [2, 4], ⟨false, none, some ("操作失败，已重试 3 次: " ++ e₂)⟩⟩) := by
  constructor
  · intro A f e₀ e₁ a h0 h1 h2
    constructor
    · show adapterRetryGo f 2 (2 + 1) 0 2 [] = _
      simp [adapterRetryGo, h0, h1, h2]
    · show retryOperationGo f 2 (2 + 1) 0 2 [] none = _
      simp [retryOperationGo, h0, h1, h2]
  · intro A f e₀ e₁ e₂ h0 h1 h2
    have hs : "操作失败，已重试 " ++ toString 3 ++ " 次: " = "操作失败，已重试 3 次: " := rfl
    constructor
    · show adapterRetryGo f 2 (2 + 1) 0 2 [] = _
      simp [adapterRetryGo, h0, h1, h2]
    · show retryOperationGo f 2 (2 + 1) 0 2 [] none = _
      simp [retryOperationGo, h0, h1, h2]
      rw [hs]

/-- Witness for C5: both branches at concrete oracles. -/
theorem C5_default_retry_policy_witness :
    (retry 3 2 2 (fun k => if k < 2 then .error "fail" else (.ok 7 : Except String Nat))
        = ⟨3, [2, 4], .ok (some 7)⟩
     ∧ retry_operation 3 2 2 (fun k => if k < 2 then .error "fail" else (.ok 7 : Except String Nat))
        = ⟨3, [2, 4], ⟨true, some 7, none⟩⟩)
    ∧ (retry 3 2 2 (fun _ => (.error "fail" : Except String Nat))
        = ⟨3, [2, 4], .error "fail"⟩
     ∧ retry_operation 3 2 2 (fun _ => (.error "fail" : Except String Nat))
        = ⟨3, [2, 4], ⟨false, none, some ("操作失败，已重试 3 次: " ++ "fail")⟩⟩) :=
  ⟨C5_default_retry_policy.1 Nat _ "fail" "fail" 7 rfl rfl rfl,
   C5_default_retry_policy.2 Nat _ "fail" "fail" "fail" rfl rfl rfl⟩

/-! ## Claim C6 — the two retry implementations compared -/

/-- C6 counterexample: under the default policy, for an operation failing
all attempts, the adapter-framework `retry` re-raises the final exception
while `retry_operation` returns a normal `OperationResult` carrying an
error message — the two wrappers do **not** report final failure in the
same way. -/
theorem C6_final_failure_reported_differently :
    adapterReport (retry 3 2 2 (fun _ => (.error "boom" : Except String Nat)))
      = .raised "boom"
    ∧ recoveryReport (retry_operation 3 2 2 (fun _ => (.error "boom" : Except String Nat)))
      = .errValue "操作失败，已重试 3 次: boom"
    ∧ adapterReport (retry 3 2 2 (fun _ => (.error "boom" : Except String Nat)))
      ≠ recoveryReport (retry_operation 3 2 2 (fun _ => (.error "boom" : Except String Nat))) :=
  ⟨rfl, rfl, by decide⟩

/-- C6 (amended): for every wrapped function, attempt limit, initial
delay and backoff factor, the two wrappers make the same number of
invocations with the same inter-attempt sleep sequence, and (when at
least one attempt is allowed) succeed on exactly the same runs with the
same underlying value; but they report differently — `retry` returns the
raw value and re-raises the final exception, while `retry_operation`
wraps success in an `OperationResult` and returns (never raises) an error
`OperationResult` naming the attempt count and last exception message. -/
theorem C6_same_schedule_different_reporting :
    (∀ (A : Type) (maxAttempts : Nat) (delay backoff : Int) (f : Nat → Except String A),
      (retry maxAttempts delay backoff f).calls
        = (retry_operation maxAttempts delay backoff f).calls
      ∧ (retry maxAttempts delay backoff f).delays
        = (retry_operation maxAttempts delay backoff f).delays)
    ∧ (∀ (A : Type) (maxAttempts : Nat) (delay backoff : Int)
        (f : Nat → Except String A), 0 < maxAttempts →
      (∀ a : A, (retry maxAttempts delay backoff f).outcome = .ok (some a) →
        (retry_operation maxAttempts delay backoff f).result = ⟨true, some a, none⟩)
      ∧ (∀ e, (retry maxAttempts delay backoff f).outcome = .error e →
        (retry_operation maxAttempts delay backoff f).result =
          ⟨false, none, some ("操作失败，已重试 " ++ toString maxAttempts ++ " 次: " ++ e)⟩)) := by
  constructor
  · intro A maxAttempts delay backoff f
    exact retryGo_calls_delays_agree f backoff maxAttempts 0 delay [] none
  · intro A maxAttempts delay backoff f hpos
    simpa [retry, retry_operation] using
      retryGo_outcome_agree f backoff maxAttempts 0 delay [] none hpos

/-- Witness for C6 (amended): concrete instantiation of both parts. -/
theorem C6_same_schedule_different_reporting_witness :
    ((retry 3 2 2 (fun _ => (.error "boom" : Except String Nat))).calls
        = (retry_operation 3 2 2 (fun _ => (.error "boom" : Except String Nat))).calls)
    ∧ 0 < 3
    ∧ (retry_operation 3 2 2 (fun _ => (.error "boom" : Except String Nat))).result
        = ⟨false, none, some ("操作失败，已重试 " ++ toString 3 ++ " 次: " ++ "boom")⟩ :=
  ⟨(C6_same_schedule_different_reporting.1 Nat 3 2 2 _).1,
   by decide,
   (C6_same_schedule_different_reporting.2 Nat 3 2 2 _ (by decide)).2 "boom" rfl⟩

/-! ## Claim C9 — config redaction -/

/-- C9: `get_safe_config` returns a copy of the configuration in which the
value of every key whose name contains, case-insensitively, one of the
substrings "password", "secret", "key", "token", "auth", "credential" is
replaced by the mask "******", and every other key's value is unchanged
(key set and order preserved); in particular
`{"password": "p@ss", "host": "h"}` maps to
`{"password": "******", "host": "h"}`.  The embedding is pure, matching
the source's copy-then-mask: the input dictionary is not mutated. -/
theorem C9_get_safe_config_masks_sensitive_keys :
    get_safe_config [("password", .vStr "p@ss"), ("host", .vStr "h")] =
      [("password", .vStr "******"), ("host", .vStr "h")]
    ∧ ∀ (config : Dict) (k : String),
        (get_safe_config config).keyList = config.keyList ∧
        (get_safe_config config).lookup k =
          (config.lookup k).map (fun v => if isSensitiveName k then .vStr "******" else v) :=
  ⟨rfl, fun config k => ⟨keyList_get_safe_config config, lookup_get_safe_config config k⟩⟩

/-! ## Claim C1 — version persistence on every evaluated change -/

/-- C1 counterexample: a `validate_config_change` call whose new
configuration fails basic validation (here: unsupported middleware type
"kafka") returns an invalid result **and leaves the version store empty**
— no `ConfigVersion` containing `new_config` is persisted, contradicting
"regardless of whether the returned result is valid or invalid, a new
ConfigVersion containing new_config is persisted". -/
theorem C1_no_version_saved_on_basic_failure :
    (validate_config_change [] "mw-1" "kafka" [] [("host", .vStr "h")] "20240101000000").1.is_valid
      = false
    ∧ (validate_config_change [] "mw-1" "kafka" [] [("host", .vStr "h")] "20240101000000").2
      = [] :=
  ⟨rfl, rfl⟩

/-- C1 (amended): `validate_config_change` persists a new `ConfigVersion`
containing `new_config` exactly when `new_config` passes basic validation
(`validate_config`); in that case the version is persisted regardless of
whether the returned result is valid or invalid (the concrete conjunct
shows an invalid result — sensitive key `data_dir` removed — that still
persists the version), and when basic validation fails the store is left
unchanged. -/
theorem C1_version_persisted_iff_basic_valid :
    (∀ (store : VersionStore) (mid mtype : String) (old_config new_config : Dict)
        (versionId : String),
      (validate_config_change store mid mtype old_config new_config versionId).2 =
        if (validate_config mtype new_config).is_valid then
          save_config_version store mid versionId new_config
        else store)
    ∧ (validate_config_change [] "redis-1" "redis"
        [("host", .vStr "localhost"), ("data_dir", .vStr "/data")]
        [("host", .vStr "localhost")] "t1").1.is_valid = false
    ∧ (validate_config_change [] "redis-1" "redis"
        [("host", .vStr "localhost"), ("data_dir", .vStr "/data")]
        [("host", .vStr "localhost")] "t1").2
      = [("redis-1", "t1", [("host", .vStr "localhost")])] :=
  ⟨persists_exactly_on_basic_validity, rfl, rfl⟩

/-! ## Claim C4 — rollback -/

/-- C4 counterexample, refuting the claim at two concrete inputs.  First,
the store holds a version `v1` for middleware `m` whose stored config is
the empty dict: `get_config_version` finds it, yet `rollback_config`
reports the not-found failure (`if not config:` treats an empty dict as
falsy), so "fails with a not-found result exactly when no stored version
with that identifier exists" is false.  Second, a rollback whose new
timestamp-derived version id collides with `v1` itself (timestamps have
second resolution, so a same-second rollback is reachable) overwrites
`config_v1.json`: afterwards V's stored record holds the annotated
config, so "leaves version V's own stored record unmodified" is false as
well. -/
theorem C4_rollback_not_found_despite_existing_version :
    (get_config_version [("m", "v1", ([] : Dict))] "m" "v1" = some []
    ∧ (rollback_config [("m", "v1", ([] : Dict))] "m" "v1" "now" "t2").1 =
        (false, none, some "版本 v1 不存在"))
    ∧ get_config_version
        (rollback_config [("m", "v1", [("host", .vStr "h")])] "m" "v1" "now" "v1").2
        "m" "v1"
      = some [("host", .vStr "h"),
          ("_rollback_info", .vDict [("rollback", .vBool true),
            ("from_version", .vStr "v1"), ("timestamp", .vStr "now")])] :=
  ⟨⟨rfl, rfl⟩, rfl⟩

/-- C4 (amended): `rollback_config` fails with the not-found result when no
stored version with that identifier exists **or when the stored config is
empty** (Python falsy check), leaving the store unchanged; on a version V
with non-empty stored config it returns V's config plus the
rollback-provenance entry (`_rollback_info` with the source version id and
a timestamp) and persists that configuration under the new
timestamp-derived version id.  V's own stored record is retrievable
unmodified **only when the new version id differs from V's**; when the
rollback's timestamp collides with V's id (`open(..., 'w')` overwrites
`config_<vid>.json`), V's stored record now holds the annotated config. -/
theorem C4_rollback_behaviour (store : VersionStore) (mid vid now ts : String) :
    ((get_config_version store mid vid = none ∨ get_config_version store mid vid = some []) →
      rollback_config store mid vid now ts =
        ((false, none, some ("版本 " ++ vid ++ " 不存在")), store))
    ∧ (∀ c : Dict, get_config_version store mid vid = some c → c ≠ [] →
        rollback_config store mid vid now ts =
          ((true, some (c.setKey "_rollback_info" (.vDict
              [("rollback", .vBool true), ("from_version", .vStr vid),
               ("timestamp", .vStr now)])), none),
            save_config_version store mid ts (c.setKey "_rollback_info" (.vDict
              [("rollback", .vBool true), ("from_version", .vStr vid),
               ("timestamp", .vStr now)])))
        ∧ (ts ≠ vid →
            get_config_version (rollback_config store mid vid now ts).2 mid vid = some c)
        ∧ (ts = vid →
            get_config_version (rollback_config store mid vid now ts).2 mid vid
              = some (c.setKey "_rollback_info" (.vDict
                  [("rollback", .vBool true), ("from_version", .vStr vid),
                   ("timestamp", .vStr now)])))) := by
  constructor
  · rintro (h | h) <;> simp [rollback_config, h, List.isEmpty]
  · intro c hc hne
    have hemp : c.isEmpty = false := by
      cases c with
      | nil => exact absurd rfl hne
      | cons a t => rfl
    have hroll : rollback_config store mid vid now ts =
        ((true, some (c.setKey "_rollback_info" (.vDict
            [("rollback", .vBool true), ("from_version", .vStr vid),
             ("timestamp", .vStr now)])), none),
          save_config_version store mid ts (c.setKey "_rollback_info" (.vDict
            [("rollback", .vBool true), ("from_version", .vStr vid),
             ("timestamp", .vStr now)]))) := by
      simp [rollback_config, hc, hemp]
    refine ⟨hroll, fun hts => ?_, fun hts => ?_⟩
    · rw [hroll]
      rw [get_config_version_save_other store mid vid ts _ (fun h => hts h.symm)]
      exact hc
    · subst hts
      rw [hroll]
      exact get_config_version_save_same store mid ts _

/-- Witness for C4 (amended): the failure branch, the success branch with
a fresh version id (V intact), and the success branch under a same-second
timestamp collision (V overwritten), at concrete stores. -/
theorem C4_rollback_behaviour_witness :
    rollback_config [("m", "v1", ([] : Dict))] "m" "v1" "now" "t2" =
      ((false, none, some "版本 v1 不存在"), [("m", "v1", ([] : Dict))])
    ∧ rollback_config [("m", "v1", [("host", .vStr "h")])] "m" "v1" "now" "t2" =
        ((true, some [("host", .vStr "h"),
            ("_rollback_info", .vDict [("rollback", .vBool true),
              ("from_version", .vStr "v1"), ("timestamp", .vStr "now")])], none),
          [("m", "v1", [("host", .vStr "h")]),
           ("m", "t2", [("host", .vStr "h"),
            ("_rollback_info", .vDict [("rollback", .vBool true),
              ("from_version", .vStr "v1"), ("timestamp", .vStr "now")])])])
    ∧ get_config_version
        (rollback_config [("m", "v1", [("host", .vStr "h")])] "m" "v1" "now" "t2").2
        "m" "v1" = some [("host", .vStr "h")]
    ∧ get_config_version
        (rollback_config [("m", "v1", [("host", .vStr "h")])] "m" "v1" "now" "v1").2
        "m" "v1"
      = some [("host", .vStr "h"),
          ("_rollback_info", .vDict [("rollback", .vBool true),
            ("from_version", .vStr "v1"), ("timestamp", .vStr "now")])] := by
  refine ⟨?_, ?_, ?_, ?_⟩
  · exact (C4_rollback_behaviour [("m", "v1", ([] : Dict))] "m" "v1" "now" "t2").1 (Or.inr rfl)
  · have h := ((C4_rollback_behaviour [("m", "v1", [("host", .vStr "h")])] "m" "v1" "now" "t2").2
      [("host", .vStr "h")] rfl (by simp)).1
    simpa [Dict.setKey, Dict.containsKey, save_config_version] using h
  · have h := ((C4_rollback_behaviour [("m", "v1", [("host", .vStr "h")])] "m" "v1" "now" "t2").2
      [("host", .vStr "h")] rfl (by simp)).2.1 (by decide)
    exact h
  · have h := ((C4_rollback_behaviour [("m", "v1", [("host", .vStr "h")])] "m" "v1" "now" "v1").2
      [("host", .vStr "h")] rfl (by simp)).2.2 rfl
    simpa [Dict.setKey, Dict.containsKey] using h

/-! ## Helper lemmas: the `"严重" in issue` substring scan -/

theorem isPrefixList_append (n h₁ h₂ : List Char) (h : isPrefixList n h₁ = true) :
    isPrefixList n (h₁ ++ h₂) = true := by
  induction n generalizing h₁ with
  | nil => rfl
  | cons a as ih =>
    cases h₁ with
    | nil => simp [isPrefixList] at h
    | cons b bs =>
      simp only [isPrefixList, Bool.and_eq_true, List.cons_append] at h ⊢
      exact ⟨h.1, ih bs h.2⟩

theorem isSubList_nil_needle (l : List Char) : isSubList [] l = true := by
  induction l <;> simp [isSubList, isPrefixList, *]

theorem isSubList_append_left (n h₁ h₂ : List Char) (h : isSubList n h₁ = true) :
    isSubList n (h₁ ++ h₂) = true := by
  induction h₁ with
  | nil =>
    have hn : n = [] := by
      cases n with
      | nil => rfl
      | cons a as => simp [isSubList, isPrefixList] at h
    subst hn
    exact isSubList_nil_needle h₂
  | cons b bs ih =>
    simp only [isSubList, Bool.or_eq_true] at h
    rcases h with h | h
    · have := isPrefixList_append n (b :: bs) h₂ h
      simp only [List.cons_append, isSubList, Bool.or_eq_true]
      exact Or.inl (by simpa using this)
    · simp only [List.cons_append, isSubList, Bool.or_eq_true]
      exact Or.inr (ih h)

theorem isSubList_head_free (c₀ : Char) (ns : List Char) :
    ∀ (l : List Char), (∀ c ∈ l, c ≠ c₀) → isSubList (c₀ :: ns) l = false := by
  intro l
  induction l with
  | nil => intro _; rfl
  | cons b t ih =>
    intro hfree
    have hb : b ≠ c₀ := hfree b (by simp)
    have hbeq : (c₀ == b) = false := by
      simp only [beq_eq_false_iff_ne, ne_eq]
      exact fun h => hb h.symm
    simp [isSubList, isPrefixList, hbeq, ih fun c hc => hfree c (by simp [hc])]

/-- The substring scan succeeds on any message extending a text that
already contains the needle (critical issue messages). -/
theorem contains_critMsg (p x sfx : String) (hp : strContains p "严重" = true) :
    strContains (p ++ x ++ sfx) "严重" = true := by
  unfold strContains at *
  have hdata : (p ++ x ++ sfx).data = (p.data ++ x.data) ++ sfx.data := by
    simp [String.data_append]
  rw [hdata]
  exact isSubList_append_left _ _ _ (isSubList_append_left _ _ _ hp)

/-- The substring scan fails on any message none of whose characters is
the needle's first character (warning issue messages). -/
theorem contains_warnMsg_false (p x sfx : String)
    (hp : ∀ c ∈ p.data, c ≠ '严') (hx : ∀ c ∈ x.data, c ≠ '严')
    (hs : ∀ c ∈ sfx.data, c ≠ '严') :
    strContains (p ++ x ++ sfx) "严重" = false := by
  unfold strContains
  have hdata : (p ++ x ++ sfx).data = (p.data ++ x.data) ++ sfx.data := by
    simp [String.data_append]
  rw [hdata]
  refine isSubList_head_free '严' ['重'] _ fun c hc => ?_
  rcases List.mem_append.mp hc with hc | hc
  · rcases List.mem_append.mp hc with hc | hc
    · exact hp c hc
    · exact hx c hc
  · exact hs c hc

/-! ## Helper lemmas: rendered numbers are ASCII -/

theorem digitChar_ne_yan (d : Nat) (hd : d < 10) : Char.ofNat (48 + d) ≠ '严' := by
  interval_cases d <;> decide

theorem natDigitsAux_yanFree :
    ∀ (fuel n : Nat) (c : Char), c ∈ natDigitsAux fuel n → c ≠ '严' := by
  intro fuel
  induction fuel with
  | zero => intro n c hc; simp [natDigitsAux] at hc
  | succ fuel ih =>
    intro n c hc
    by_cases h10 : n < 10
    · simp only [natDigitsAux, h10, if_true, List.mem_singleton] at hc
      subst hc
      exact digitChar_ne_yan _ (Nat.mod_lt _ (by norm_num))
    · simp only [natDigitsAux, h10, Bool.false_eq_true, if_false, List.mem_append,
        List.mem_singleton] at hc
      rcases hc with hc | hc
      · exact ih (n / 10) c hc
      · subst hc
        exact digitChar_ne_yan _ (Nat.mod_lt _ (by norm_num))

theorem natText_yanFree (n : Nat) : ∀ c ∈ (natText n).data, c ≠ '严' := by
  intro c hc
  exact natDigitsAux_yanFree (n + 1) n c hc

theorem intText_yanFree (i : Int) : ∀ c ∈ (intText i).data, c ≠ '严' := by
  intro c hc
  unfold intText at hc
  by_cases hneg : i < 0
  · simp only [hneg, if_true, String.data_append, List.mem_append] at hc
    rcases hc with hc | hc
    · simp at hc
      subst hc
      decide
    · exact natText_yanFree _ c hc
  · simp only [hneg, Bool.false_eq_true, if_false] at hc
    exact natText_yanFree _ c hc

theorem ratText_yanFree (q : Rat) : ∀ c ∈ (ratText q).data, c ≠ '严' := by
  intro c hc
  unfold ratText at hc
  by_cases hden : q.den = 1
  · simp only [hden, if_pos] at hc
    exact intText_yanFree _ c hc
  · simp only [hden, if_false, String.data_append, List.mem_append] at hc
    rcases hc with (hc | hc) | hc
    · exact intText_yanFree _ c hc
    · simp at hc
      subst hc
      decide
    · exact natText_yanFree _ c hc

/-! ## Helper lemmas: issue list vs severity list alignment -/

theorem isEmpty_append {α : Type} (a b : List α) :
    (a ++ b).isEmpty = (a.isEmpty && b.isEmpty) := by
  cases a <;> simp [List.isEmpty]

theorem memory_align (info : StatusInfo) :
    ((memoryIssues info).any fun s => strContains s "严重")
      = ((memorySevs info).any fun s => s == Severity.crit)
    ∧ (memoryIssues info).isEmpty = (memorySevs info).isEmpty := by
  unfold memoryIssues memorySevs
  cases hum : info.used_memory_human with
  | none => exact ⟨rfl, rfl⟩
  | some um =>
    constructor
    · dsimp only
      split_ifs with h1 h2 h3
      · simp only [List.any_cons, List.any_nil, Bool.or_false]
        rw [contains_critMsg _ _ _ (by decide)]
        rfl
      · simp only [List.any_cons, List.any_nil, Bool.or_false]
        rw [contains_warnMsg_false _ _ _ (by decide) (ratText_yanFree _) (by decide)]
        rfl
      · rfl
      · rfl
    · dsimp only
      split_ifs <;> rfl

theorem cpu_align (info : StatusInfo) :
    ((cpuIssues info).any fun s => strContains s "严重")
      = ((cpuSevs info).any fun s => s == Severity.crit)
    ∧ (cpuIssues info).isEmpty = (cpuSevs info).isEmpty := by
  unfold cpuIssues cpuSevs
  cases hcpu : info.cpu_usage with
  | none => exact ⟨rfl, rfl⟩
  | some cpu =>
    constructor
    · dsimp only
      split_ifs with h1 h2
      · simp only [List.any_cons, List.any_nil, Bool.or_false]
        rw [contains_critMsg _ _ _ (by decide)]
        rfl
      · simp only [List.any_cons, List.any_nil, Bool.or_false]
        rw [contains_warnMsg_false _ _ _ (by decide) (ratText_yanFree _) (by decide)]
        rfl
      · rfl
    · dsimp only
      split_ifs <;> rfl

theorem conn_align (info : StatusInfo) :
    ((connIssues info).any fun s => strContains s "严重")
      = ((connSevs info).any fun s => s == Severity.crit)
    ∧ (connIssues info).isEmpty = (connSevs info).isEmpty := by
  unfold connIssues connSevs
  cases hc : info.connected_clients with
  | none => cases info.maxclients <;> exact ⟨rfl, rfl⟩
  | some connected =>
    cases hm : info.maxclients with
    | none => exact ⟨rfl, rfl⟩
    | some max_clients =>
      constructor
      · dsimp only
        split_ifs with h1 h2 h3
        · simp only [List.any_cons, List.any_nil, Bool.or_false]
          rw [contains_critMsg _ _ _ (by decide)]
          rfl
        · simp only [List.any_cons, List.any_nil, Bool.or_false]
          rw [contains_warnMsg_false _ _ _ (by decide) (ratText_yanFree _) (by decide)]
          rfl
        · rfl
        · rfl
      · dsimp only
        split_ifs <;> rfl

theorem resp_align (rt : Rat) :
    ((respIssues rt).any fun s => strContains s "严重")
      = ((respSevs rt).any fun s => s == Severity.crit)
    ∧ (respIssues rt).isEmpty = (respSevs rt).isEmpty := by
  unfold respIssues respSevs
  constructor
  · split_ifs with h1 h2
    · simp only [List.any_cons, List.any_nil, Bool.or_false]
      rw [contains_critMsg _ _ _ (by decide)]
      rfl
    · simp only [List.any_cons, List.any_nil, Bool.or_false]
      rw [contains_warnMsg_false _ _ _ (by decide) (ratText_yanFree _) (by decide)]
      rfl
    · rfl
  · split_ifs <;> rfl

theorem issues_align (info : StatusInfo) (rt : Rat) :
    ((checkIssues info rt).any fun s => strContains s "严重")
      = ((breachSeverities info rt).any fun s => s == Severity.crit)
    ∧ (checkIssues info rt).isEmpty = (breachSeverities info rt).isEmpty := by
  have hm := memory_align info
  have hc := cpu_align info
  have hn := conn_align info
  have hr := resp_align rt
  unfold checkIssues breachSeverities
  constructor
  · simp only [List.any_append, hm.1, hc.1, hn.1, hr.1]
  · simp only [isEmpty_append, hm.2, hc.2, hn.2, hr.2]

/-- Refinement: the status computed by `check` (string-building plus the
`"严重" in issue` scan) equals the spec-side severity classification. -/
theorem check_status_eq_specStatus (adapter : Except String StatusResult)
    (rt : Rat) (now : String) (st : CheckState) :
    (MiddlewareHealthCheck_check adapter rt now st).1.status = specStatus adapter rt := by
  cases adapter with
  | error e => rfl
  | ok r =>
    unfold MiddlewareHealthCheck_check specStatus
    by_cases hsucc : r.success
    · by_cases hrun : (r.status.getD emptyStatusInfo).status = some "running"
      · have h := issues_align (r.status.getD emptyStatusInfo) rt
        simp only [hsucc, Bool.not_true, Bool.false_eq_true, if_false, hrun, ne_eq,
          not_true_eq_false, if_true, h.1, h.2]
        rw [apply_ite Prod.fst]
      · simp [hsucc, hrun]
    · simp only [Bool.not_eq_true] at hsucc
      simp [hsucc]

/-! ## Claim C10 — unknown operation id is a no-op -/

/-- C10: when `process_middleware_operation` is invoked with an
`operation_id` matching no record in the operations store, it returns
without mutating any state: the middleware store and the operations store
are returned unchanged (so no operation's status/result/error_message and
no instance's status/version/config/last_updated changes). -/
theorem C10_unknown_operation_is_noop (db : MwDB) (ops : List Operation)
    (operation_id operation_type middleware_id : String) (params : Option Dict)
    (now : String)
    (h : ops.find? (fun op => op.operation_id == operation_id) = none) :
    process_middleware_operation db ops operation_id operation_type middleware_id
      params now = (db, ops) := by
  simp [process_middleware_operation, h]

/-- Witness for C10 at an empty operations store. -/
theorem C10_unknown_operation_is_noop_witness :
    (List.find? (fun op => op.operation_id == "op-1") ([] : List Operation) = none)
    ∧ process_middleware_operation [("redis-main", sampleRunning)] [] "op-1" "start"
        "redis-main" none "t1" = ([("redis-main", sampleRunning)], []) :=
  ⟨rfl, C10_unknown_operation_is_noop [("redis-main", sampleRunning)] [] "op-1" "start"
    "redis-main" none "t1" rfl⟩

/-! ## Claim C8 — start/stop conflict guard -/

/-- C8: `start_middleware` on an instance whose status is already
"running" rejects the call with the 400 error the spec's taxonomy labels
Conflict ("already running"), appends no new record to the operations
store and leaves the middleware store unchanged; `stop_middleware` on an
instance whose status is already "stopped" behaves symmetrically. -/
theorem C8_start_stop_conflict (db : MwDB) (ops : List Operation)
    (middleware_id opId now : String) (mw : MwRecord)
    (hdb : dbLookup db middleware_id = some mw) :
    (mw.status = "running" →
      start_middleware db ops middleware_id opId now =
        (.error (400, "中间件 " ++ middleware_id ++ " 已经在运行中"), db, ops))
    ∧ (mw.status = "stopped" →
      stop_middleware db ops middleware_id opId now =
        (.error (400, "中间件 " ++ middleware_id ++ " 已经停止"), db, ops)) := by
  constructor <;> intro hs <;> simp [start_middleware, stop_middleware, hdb, hs]

/-- Witness for C8: a running and a stopped instance. -/
theorem C8_start_stop_conflict_witness :
    start_middleware [("redis-main", sampleRunning)] [] "redis-main" "op-1" "t1" =
      (.error (400, "中间件 redis-main 已经在运行中"), [("redis-main", sampleRunning)], [])
    ∧ stop_middleware [("mysql-main", sampleStopped)] [] "mysql-main" "op-2" "t1" =
      (.error (400, "中间件 mysql-main 已经停止"), [("mysql-main", sampleStopped)], []) :=
  ⟨(C8_start_stop_conflict [("redis-main", sampleRunning)] [] "redis-main" "op-1" "t1"
      sampleRunning rfl).1 rfl,
   (C8_start_stop_conflict [("mysql-main", sampleStopped)] [] "mysql-main" "op-2" "t1"
      sampleStopped rfl).2 rfl⟩

/-! ## Helper lemmas: alert state -/

theorem lookupTime_setTime (st : AlertState) (name : String) (t : Int) :
    lookupTime (setTime st name t) name = some t := by
  induction st with
  | nil => simp [setTime, lookupTime]
  | cons e rest ih =>
    obtain ⟨n, t'⟩ := e
    by_cases hn : n == name
    · simp [setTime, lookupTime, hn]
    · simp only [setTime, hn, Bool.false_eq_true, if_neg, if_false]
      simpa [lookupTime, hn] using ih

theorem should_alert_true_state (minL : String) (cd : Int) (st : AlertState)
    (name s : String) (t : Int)
    (h : (should_alert minL cd st name s t).1 = true) :
    (should_alert minL cd st name s t).2 = setTime st name t := by
  unfold should_alert at *
  by_cases h1 : levelOf s = "info" ∧ minL ≠ "info"
  · simp [h1] at h
  · by_cases h2 : levelOf s = "warning" ∧ minL = "critical"
    · simp [h1, h2] at h
    · simp only [h1, h2, if_false] at h ⊢
      cases hl : lookupTime st name with
      | none => simp [hl]
      | some last =>
        simp only [hl] at h ⊢
        by_cases hc : t - last < cd
        · simp [hc] at h
        · simp [hc]

/-! ## Claim C3 — alert severity gate and cooldown -/

/-- C3: (a) a warning result is never dispatched by an alerter with
minimum level critical, and an info-level result is never dispatched
unless the minimum level is info — the alert state is untouched; (b)
after a dispatch for a check at time `t`, every result for the same check
strictly within the 300-second default cooldown is suppressed with the
state unchanged, and the first qualifying result at or after `t + 300`
dispatches again; (c) concretely, critical results at times 0, 100 and
300 dispatch, suppress, and dispatch again — two dispatched alerts in
total. -/
theorem C3_alert_severity_and_cooldown :
    (∀ (st : AlertState) (name : String) (t : Int),
      should_alert "critical" cooldown_period st name "warning" t = (false, st))
    ∧ (∀ (minL : String) (st : AlertState) (name s : String) (t : Int),
      minL ≠ "info" → levelOf s = "info" →
      should_alert minL cooldown_period st name s t = (false, st))
    ∧ (∀ (minL : String) (st : AlertState) (name s s' : String) (t t' : Int),
      (should_alert minL cooldown_period st name s t).1 = true →
      (t' - t < 300 →
        should_alert minL cooldown_period
            (should_alert minL cooldown_period st name s t).2 name s' t'
          = (false, (should_alert minL cooldown_period st name s t).2))
      ∧ (t' - t ≥ 300 → ¬(levelOf s' = "info" ∧ minL ≠ "info") →
          ¬(levelOf s' = "warning" ∧ minL = "critical") →
          (should_alert minL cooldown_period
            (should_alert minL cooldown_period st name s t).2 name s' t').1 = true))
    ∧ ((should_alert "warning" cooldown_period [] "chk" "critical" 0).1 = true
      ∧ (should_alert "warning" cooldown_period
          (should_alert "warning" cooldown_period [] "chk" "critical" 0).2
          "chk" "critical" 100).1 = false
      ∧ (should_alert "warning" cooldown_period
          (should_alert "warning" cooldown_period
            (should_alert "warning" cooldown_period [] "chk" "critical" 0).2
            "chk" "critical" 100).2
          "chk" "critical" 300).1 = true) := by
  refine ⟨?_, ?_, ?_, by decide⟩
  · intro st name t
    simp [should_alert, levelOf]
  · intro minL st name s t hmin hinfo
    simp [should_alert, hinfo, hmin]
  · intro minL st name s s' t t' hfst
    have hstate := should_alert_true_state minL cooldown_period st name s t hfst
    rw [hstate]
    have hlook := lookupTime_setTime st name t
    constructor
    · intro hwin
      unfold should_alert
      by_cases h1 : levelOf s' = "info" ∧ minL ≠ "info"
      · simp [h1]
      · by_cases h2 : levelOf s' = "warning" ∧ minL = "critical"
        · simp [h1, h2]
        · simp only [h1, h2, if_false, hlook]
          have : t' - t < cooldown_period := by
            simpa [cooldown_period] using hwin
          simp [this]
    · intro hafter h1 h2
      unfold should_alert
      simp only [h1, h2, if_false, hlook]
      have : ¬ (t' - t < cooldown_period) := by
        simp only [cooldown_period]
        omega
      simp [this]

/-- Witness for C3: the level gate, suppression within the window and
re-dispatch at the boundary, applied at concrete states and times. -/
theorem C3_alert_severity_and_cooldown_witness :
    should_alert "critical" cooldown_period [] "chk" "warning" 5 = (false, [])
    ∧ should_alert "warning" cooldown_period
        (should_alert "warning" cooldown_period [] "chk" "critical" 0).2
        "chk" "critical" 100
      = (false, (should_alert "warning" cooldown_period [] "chk" "critical" 0).2)
    ∧ (should_alert "warning" cooldown_period
        (should_alert "warning" cooldown_period [] "chk" "critical" 0).2
        "chk" "critical" 300).1 = true :=
  ⟨C3_alert_severity_and_cooldown.1 [] "chk" 5,
   (C3_alert_severity_and_cooldown.2.2.1 "warning" [] "chk" "critical" "critical" 0 100
      rfl).1 (by decide),
   (C3_alert_severity_and_cooldown.2.2.1 "warning" [] "chk" "critical" "critical" 0 300
      rfl).2 (by decide) (by decide) (by decide)⟩

/-! ## Claim C2 — health-check classification -/

set_option maxRecDepth 8000 in
/-- C2: for every call to `check`: a raised or unsuccessful status
retrieval is critical; a reported status other than "running" is
critical; otherwise the result equals the spec-side severity
classification over the threshold breaches (memory 70/90 % of configured
max, CPU 70/90, connections 70/90, response time 1.0 s/3.0 s): healthy
with no breach, critical with any critical breach, warning otherwise.
Concretely: memory at 92 % of max is critical, 75 % warning, 50 % no
issue, and a 3.5 s response time is critical whatever the other metrics
report. -/
theorem C2_check_classification :
    (∀ (adapter : Except String StatusResult) (rt : Rat) (now : String) (st : CheckState),
      (MiddlewareHealthCheck_check adapter rt now st).1.status = specStatus adapter rt)
    ∧ (MiddlewareHealthCheck_check (.ok ⟨true, none, some (memInfo "92M" "100M")⟩)
        (1/2) "t" freshCheckState).1.status = "critical"
    ∧ (MiddlewareHealthCheck_check (.ok ⟨true, none, some (memInfo "75M" "100M")⟩)
        (1/2) "t" freshCheckState).1.status = "warning"
    ∧ (MiddlewareHealthCheck_check (.ok ⟨true, none, some (memInfo "50M" "100M")⟩)
        (1/2) "t" freshCheckState).1.status = "healthy"
    ∧ (∀ (r : StatusResult) (now : String) (st : CheckState),
        r.success = true → (r.status.getD emptyStatusInfo).status = some "running" →
        (MiddlewareHealthCheck_check (.ok r) (7/2) now st).1.status = "critical") := by
  have hthw : thresholds "memory_usage_warning" = 70 := rfl
  have hthc : thresholds "memory_usage_critical" = 90 := rfl
  have hrw : thresholds "response_time_warning" = 1 := rfl
  have hrc : thresholds "response_time_critical" = 3 := rfl
  have hsev : ∀ (u m : String) (rt : Rat), breachSeverities (memInfo u m) rt
      = memorySevs (memInfo u m) ++ respSevs rt := by
    intro u m rt
    unfold breachSeverities cpuSevs connSevs memInfo
    simp
  have hrsmall : respSevs (1/2) = [] := by
    unfold respSevs
    rw [hrw, hrc]
    norm_num
  have hstat : ∀ (u m : String) (rt : Rat),
      specStatus (.ok ⟨true, none, some (memInfo u m)⟩) rt
        = (let sevs := breachSeverities (memInfo u m) rt;
           if sevs.isEmpty then "healthy"
           else if sevs.any fun s => s == Severity.crit then "critical" else "warning") := by
    intro u m rt
    rfl
  have h92 : parse_memory_usage "92M" = ((92 : Nat) : Rat) * 1024 * 1024 := rfl
  have h75 : parse_memory_usage "75M" = ((75 : Nat) : Rat) * 1024 * 1024 := rfl
  have h50 : parse_memory_usage "50M" = ((50 : Nat) : Rat) * 1024 * 1024 := rfl
  have h100 : parse_memory_usage "100M" = ((100 : Nat) : Rat) * 1024 * 1024 := rfl
  have hm92 : memorySevs (memInfo "92M" "100M") = [Severity.crit] := by
    unfold memorySevs memInfo
    dsimp only
    simp only [Option.getD_some, h92, h100, hthc]
    norm_num
  have hm75 : memorySevs (memInfo "75M" "100M") = [Severity.warn] := by
    unfold memorySevs memInfo
    dsimp only
    simp only [Option.getD_some, h75, h100, hthc, hthw]
    norm_num
  have hm50 : memorySevs (memInfo "50M" "100M") = [] := by
    unfold memorySevs memInfo
    dsimp only
    simp only [Option.getD_some, h50, h100, hthc, hthw]
    norm_num
  refine ⟨check_status_eq_specStatus, ?_, ?_, ?_, ?_⟩
  · rw [check_status_eq_specStatus, hstat, hsev, hm92, hrsmall]
    simp
  · rw [check_status_eq_specStatus, hstat, hsev, hm75, hrsmall]
    simp
  · rw [check_status_eq_specStatus, hstat, hsev, hm50, hrsmall]
    simp
  · intro r now st hsucc hrun
    rw [check_status_eq_specStatus]
    unfold specStatus
    simp only [hsucc, Bool.not_true, Bool.false_eq_true, if_false, hrun, ne_eq,
      not_true_eq_false, if_true]
    have hresp : respSevs (7/2) = [Severity.crit] := by
      unfold respSevs
      rw [hrc]
      norm_num
    have hne : (breachSeverities (r.status.getD emptyStatusInfo) (7/2)).isEmpty = false := by
      simp [breachSeverities, isEmpty_append, hresp]
    have hany : ((breachSeverities (r.status.getD emptyStatusInfo) (7/2)).any
        fun s => s == Severity.crit) = true := by
      simp [breachSeverities, List.any_append, hresp]
    simp [hne, hany]

/-- Witness for C2: the refinement applied at a concrete failing adapter
call, and the 3.5 s response-time conjunct at a concrete running
instance. -/
theorem C2_check_classification_witness :
    (MiddlewareHealthCheck_check (.error "down") 1 "t" freshCheckState).1.status
      = specStatus (.error "down") 1
    ∧ (MiddlewareHealthCheck_check
        (.ok ⟨true, none, some (memInfo "75M" "100M")⟩) (7/2) "t" freshCheckState).1.status
      = "critical" :=
  ⟨C2_check_classification.1 (.error "down") 1 "t" freshCheckState,
   C2_check_classification.2.2.2.2 ⟨true, none, some (memInfo "75M" "100M")⟩ "t"
     freshCheckState rfl rfl⟩

/-! ## Claim C7 — the rolling-history cap -/

/-- C7 (the code evaluated at the failing input): with the rolling history
already at its 100-entry cap, a `check` call whose adapter call raises
appends its one entry **without trimming**, leaving 101 entries —
violating "after every call the history contains at most 100 entries" —
while the success path at the same state trims back to 100. -/
theorem C7_exception_path_exceeds_history_cap :
    (MiddlewareHealthCheck_check (.error "boom") 1 "t" hist100).2.history
      = hist100.history ++ [⟨"t", "critical", "健康检查异常: " ++ "boom", 1⟩]
    ∧ (MiddlewareHealthCheck_check (.error "boom") 1 "t" hist100).2.history.length = 101
    ∧ (MiddlewareHealthCheck_check (.ok ⟨true, none, some runningInfo⟩) 1 "t"
        hist100).2.history.length = 100 := by
  refine ⟨rfl, by decide, by decide⟩

end CommonAgent
